import Mathlib

/-!
Verification of the reminder / recurring-task engine of the task-manager
repository (phase-5-cloud backend and notification service).

The Python sources are shallowly embedded as executable Lean definitions:

* `src/phase-5-cloud/backend/src/utils/recurrence.py` — the recurrence engine
  (rule parsing, next-occurrence calculation, month arithmetic, the restricted
  cron evaluator);
* `src/phase-5-cloud/backend/src/routers/tasks.py` — task update, completion
  toggling with recurrence materialization, and the scheduler tick
  (`handle_cron_binding`);
* `src/phase-5-cloud/backend/src/routers/push_subscriptions.py` — subscription
  upsert / delete;
* `src/phase-5-cloud/backend/src/services/task_service.py` — `set_recurring`;
* `src/phase-5-cloud/notification-service/src/push.py` and `handlers.py` — the
  notification worker.

Python `datetime` values are modelled by the `DateTime` structure below (naive
UTC, as the source stores them); timezone stripping (`_strip_tz`) is therefore
the identity and is not modelled separately.  Python exceptions that escape a
function are modelled with `Except`.  Database rows are lists of records; the
auto-assigned primary key of a freshly inserted task is passed in explicitly.
-/

/-! ## Python string primitives

The Python string operations used by the sources (`str.strip`, `str.lower`,
`str.split`, slicing, `in`, `int(...)`) are given as executable definitions
over the character list of a `String`, mirroring CPython semantics on the
inputs the program feeds them (code-point oriented, whitespace runs, optional
sign and surrounding whitespace for `int`). -/

/-- Python `s.strip()` on a character list: drop whitespace from both ends. -/
def pyStripL (l : List Char) : List Char :=
  ((l.dropWhile Char.isWhitespace).reverse.dropWhile Char.isWhitespace).reverse

/-- Python `s.strip()`. -/
def pyStrip (s : String) : String := String.mk (pyStripL s.data)

/-- Python `s.lower()` (ASCII case folding suffices for the rule strings). -/
def pyLower (s : String) : String := String.mk (s.data.map Char.toLower)

/-- Python `s.startswith(pre)`. -/
def pyStartsWith (s pre : String) : Bool := pre.data.isPrefixOf s.data

/-- Python slice `s[n:]` (by code points). -/
def pyDrop (s : String) (n : Nat) : String := String.mk (s.data.drop n)

/-- Worker of `pySplitWs`: split on runs of whitespace, discarding empties,
exactly like Python `s.split()` with no argument. -/
def wsSplitAux : List Char → List Char → List (List Char)
  | [], acc => if acc.isEmpty then [] else [acc.reverse]
  | c :: cs, acc =>
    if c.isWhitespace then
      if acc.isEmpty then wsSplitAux cs [] else acc.reverse :: wsSplitAux cs []
    else wsSplitAux cs (c :: acc)

/-- Python `s.split()` (no separator argument). -/
def pySplitWs (s : String) : List String := (wsSplitAux s.data []).map String.mk

/-- Worker of `pySplitOn`: split on a separator character, keeping empties,
like Python `s.split(sep)` for a one-character separator. -/
def sepSplitAux (sep : Char) : List Char → List Char → List (List Char)
  | [], acc => [acc.reverse]
  | c :: cs, acc =>
    if c = sep then acc.reverse :: sepSplitAux sep cs []
    else sepSplitAux sep cs (c :: acc)

/-- Python `s.split(sep)` for a single-character separator. -/
def pySplitOn (s : String) (sep : Char) : List String :=
  (sepSplitAux sep s.data []).map String.mk

/-- Substring test on character lists: does `pat` occur contiguously in `l`? -/
def listHasInfix (pat : List Char) : List Char → Bool
  | [] => pat.isPrefixOf []
  | c :: cs => pat.isPrefixOf (c :: cs) || listHasInfix pat cs

/-- Python `pat in s` (substring containment). -/
def pyContains (s pat : String) : Bool := listHasInfix pat.data s.data

/-- Python `c in s` for a single character (e.g. `"," in pattern`). -/
def pyContainsChar (s : String) (c : Char) : Bool := s.data.contains c

/-- Digits of a decimal literal to a number; `none` if empty or non-digit. -/
def digitsToNat : List Char → Option Nat
  | [] => none
  | l => l.foldl (fun acc c => match acc with
      | none => none
      | some n => if c.isDigit then some (n * 10 + (c.toNat - 48)) else none)
      (some 0)

/-- Python `int(s)`: optional surrounding whitespace, optional sign, decimal
digits; `none` models the `ValueError` raised on anything else. -/
def pyInt (s : String) : Option Int :=
  match pyStripL s.data with
  | '-' :: rest => (digitsToNat rest).map (fun n => -(n : Int))
  | '+' :: rest => (digitsToNat rest).map (fun n => (n : Int))
  | l => (digitsToNat l).map (fun n => (n : Int))

/-! ## Naive UTC datetimes

`DateTime` models Python `datetime.datetime` as stored by the backend: naive
UTC with microsecond precision.  Calendar conversions use the standard
proleptic-Gregorian civil-from-days / days-from-civil algorithms, with day
number 0 = 1970-01-01 (a Thursday, Python weekday 3). -/

structure DateTime where
  year : Int
  month : Nat
  day : Nat
  hour : Nat
  minute : Nat
  second : Nat
  microsecond : Nat
deriving DecidableEq, Repr

/-- Day number (1970-01-01 = 0) of a civil date. -/
def daysFromCivil (y : Int) (m d : Nat) : Int :=
  let yy := y - (if m ≤ 2 then 1 else 0)
  let era := yy.fdiv 400
  let yoe := yy - era * 400
  let mp := ((m : Int) + 9).fmod 12
  let doy := (153 * mp + 2).fdiv 5 + (d : Int) - 1
  let doe := yoe * 365 + yoe.fdiv 4 - yoe.fdiv 100 + doy
  era * 146097 + doe - 719468

/-- Civil date of a day number (inverse of `daysFromCivil`). -/
def civilFromDays (z0 : Int) : Int × Nat × Nat :=
  let z := z0 + 719468
  let era := z.fdiv 146097
  let doe := z - era * 146097
  let yoe := (doe - doe.fdiv 1460 + doe.fdiv 36524 - doe.fdiv 146096).fdiv 365
  let y := yoe + era * 400
  let doy := doe - (365 * yoe + yoe.fdiv 4 - yoe.fdiv 100)
  let mp := (5 * doy + 2).fdiv 153
  let d := doy - (153 * mp + 2).fdiv 5 + 1
  let m := if mp < 10 then mp + 3 else mp - 9
  (y + (if m ≤ 2 then 1 else 0), m.toNat, d.toNat)

/-- Day number of a `DateTime`. -/
def DateTime.toDays (dt : DateTime) : Int := daysFromCivil dt.year dt.month dt.day

/-- Microseconds since 1970-01-01T00:00:00; Python datetime comparison
operators compare exactly this quantity on valid datetimes. -/
def DateTime.totalMicros (dt : DateTime) : Int :=
  ((((dt.toDays * 24 + (dt.hour : Int)) * 60 + (dt.minute : Int)) * 60
      + (dt.second : Int)) * 1000000) + (dt.microsecond : Int)

/-- Python `a <= b` on datetimes. -/
def dtLe (a b : DateTime) : Bool := a.totalMicros ≤ b.totalMicros

/-- Python `a < b` on datetimes. -/
def dtLt (a b : DateTime) : Bool := a.totalMicros < b.totalMicros

/-- `dt + timedelta(days = n)` (time of day unchanged, as with naive UTC). -/
def addDays (dt : DateTime) (n : Int) : DateTime :=
  let c := civilFromDays (dt.toDays + n)
  { dt with year := c.1, month := c.2.1, day := c.2.2 }

/-- `dt + timedelta(minutes = n)` (seconds and microseconds unchanged). -/
def addMinutes (dt : DateTime) (n : Int) : DateTime :=
  let total := dt.toDays * 1440 + (dt.hour : Int) * 60 + (dt.minute : Int) + n
  let c := civilFromDays (total.fdiv 1440)
  let rem := (total.fmod 1440).toNat
  { dt with year := c.1, month := c.2.1, day := c.2.2,
            hour := rem / 60, minute := rem % 60 }

/-- Python `dt.weekday()`: 0 = Monday … 6 = Sunday. -/
def DateTime.weekday (dt : DateTime) : Nat := ((dt.toDays + 3).emod 7).toNat

/-- Gregorian leap-year test (as used by `calendar.monthrange`). -/
def isLeapYear (y : Int) : Bool := y.emod 4 = 0 && (y.emod 100 ≠ 0 || y.emod 400 = 0)

/-- `calendar.monthrange(year, month)[1]`: number of days in the month. -/
def daysInMonth (y : Int) (m : Nat) : Nat :=
  if m = 2 then (if isLeapYear y then 29 else 28)
  else if m = 4 || m = 6 || m = 9 || m = 11 then 30
  else 31

/-! ## Recurrence engine

Embedding of `src/phase-5-cloud/backend/src/utils/recurrence.py`.  A Python
`ValueError` (or `ZeroDivisionError`) escaping a function is an
`Except.error` carrying the exception message. -/

/-- The keys of `RECURRENCE_PATTERNS` in `recurrence.py`. -/
def RECURRENCE_PATTERNS : List String := ["daily", "weekly", "monthly", "weekdays"]

/-- `parse_recurrence_rule(rule)`: returns `(rule_type, cron_expression?)` or
raises `ValueError`. -/
def parse_recurrence_rule (rule : String) : Except String (String × Option String) :=
  if rule = "" then .error "Recurrence rule cannot be empty"
  else
    let r := pyLower (pyStrip rule)
    if RECURRENCE_PATTERNS.contains r then .ok (r, none)
    else if pyStartsWith r "cron:" then
      let cronExpr := pyStrip (pyDrop r 5)
      if cronExpr = "" then .error "Cron expression cannot be empty"
      else
        let parts := pySplitWs cronExpr
        if parts.length ≠ 5 then
          .error ("Invalid cron expression: expected 5 fields, got " ++ toString parts.length)
        else .ok ("cron", some cronExpr)
    else .error ("Unknown recurrence rule: " ++ r)

/-- `_add_months(dt, months)`: month arithmetic with day clamped to the length
of the target month. -/
def _add_months (dt : DateTime) (months : Int) : DateTime :=
  let month0 : Int := (dt.month : Int) - 1 + months
  let year : Int := dt.year + month0.fdiv 12
  let month : Nat := (month0.fmod 12 + 1).toNat
  let max_day := daysInMonth year month
  let day := min dt.day max_day
  { dt with year := year, month := month, day := day }

/-- `_next_weekday(dt)`: the day after `dt`, skipping Saturday and Sunday.
The source `while` loop runs at most twice (Saturday, Sunday), so a fuel of 7
days is an exact model of it. -/
def _next_weekday (dt : DateTime) : DateTime :=
  let rec loop : Nat → DateTime → DateTime
    | 0, d => d
    | fuel + 1, d => if d.weekday > 4 then loop fuel (addDays d 1) else d
  loop 7 (addDays dt 1)

/-- `_matches_field(value, pattern)`: one cron field.  Branch order follows
the source: `*`, then step, then comma list, then range, then single value.
The comma-list branch converts with `int` outside any `try`, so a malformed
entry raises; a zero step raises `ZeroDivisionError` (`value % 0`). -/
def _matches_field (value : Nat) (pattern : String) : Except String Bool :=
  if pattern = "*" then .ok true
  else if pyStartsWith pattern "*/" then
    match pyInt (pyDrop pattern 2) with
    | some step =>
        if step = 0 then .error "ZeroDivisionError"
        else .ok (((value : Int).fmod step) = 0)
    | none => .ok false
  else if pyContainsChar pattern ',' then
    match (pySplitOn pattern ',').mapM pyInt with
    | some values => .ok (values.contains (value : Int))
    | none => .error "invalid literal for int"
  else if pyContainsChar pattern '-' then
    let parts := pySplitOn pattern '-'
    if parts.length = 2 then
      match pyInt (parts.headD ""), pyInt (parts.getD 1 "") with
      | some a, some b => .ok (a ≤ (value : Int) && (value : Int) ≤ b)
      | _, _ => .ok false
    else
      match pyInt pattern with
      | some n => .ok ((value : Int) = n)
      | none => .ok false
  else
    match pyInt pattern with
    | some n => .ok ((value : Int) = n)
    | none => .ok false

/-- `_matches_cron(dt, minute, hour, day, month, dow)`: all five fields match.
The Python `and` chain evaluates left to right, so an exception in a later
field is only raised when all earlier fields matched. -/
def _matches_cron (dt : DateTime) (minute hour day month dow : String) :
    Except String Bool := do
  let python_dow := (dt.weekday + 1) % 7
  let m1 ← _matches_field dt.minute minute
  if !m1 then return false
  let m2 ← _matches_field dt.hour hour
  if !m2 then return false
  let m3 ← _matches_field dt.day day
  if !m3 then return false
  let m4 ← _matches_field dt.month month
  if !m4 then return false
  _matches_field python_dow dow

/-- The scanning loop of `_next_cron_occurrence`: try up to `fuel` successive
minutes (the source uses `max_iterations = 525600`). -/
def cronScan (minute hour day month dow : String) :
    Nat → DateTime → Except String (Option DateTime)
  | 0, _ => .ok none
  | fuel + 1, candidate => do
    let hit ← _matches_cron candidate minute hour day month dow
    if hit then return some candidate
    cronScan minute hour day month dow fuel (addMinutes candidate 1)

/-- `_next_cron_occurrence(dt, cron_expr)`: next matching minute within one
year, starting from the next whole minute after `dt`. -/
def _next_cron_occurrence (dt : DateTime) (cron_expr : String) :
    Except String (Option DateTime) :=
  match pySplitWs cron_expr with
  | [minute, hour, day, month, dow] =>
      let candidate := addMinutes { dt with second := 0, microsecond := 0 } 1
      cronScan minute hour day month dow 525600 candidate
  | _ => .ok none

/-- The rule-dispatch part of `calculate_next_occurrence`: the value of
`next_date` before the `recurrence_end` check. -/
def rawNextDate (rule_type : String) (cron_expr : Option String)
    (current_date : DateTime) : Except String (Option DateTime) :=
  if rule_type = "daily" then .ok (some (addDays current_date 1))
  else if rule_type = "weekly" then .ok (some (addDays current_date 7))
  else if rule_type = "monthly" then .ok (some (_add_months current_date 1))
  else if rule_type = "weekdays" then .ok (some (_next_weekday current_date))
  else if rule_type = "cron" then
    match cron_expr with
    | some ce => if ce = "" then .ok none else _next_cron_occurrence current_date ce
    | none => .ok none
  else .ok none

/-- `calculate_next_occurrence(current_date, recurrence_rule, recurrence_end)`:
parse the rule, compute the raw next date, then return `none` when it lies
strictly after a non-null `recurrence_end`. -/
def calculate_next_occurrence (current_date : DateTime) (recurrence_rule : String)
    (recurrence_end : Option DateTime) : Except String (Option DateTime) :=
  match parse_recurrence_rule recurrence_rule with
  | .error msg => .error msg
  | .ok parsed =>
    match rawNextDate parsed.1 parsed.2 current_date with
    | .error msg => .error msg
    | .ok next_date =>
      match next_date, recurrence_end with
      | some nd, some e => if dtLt e nd then .ok none else .ok (some nd)
      | _, _ => .ok next_date

/-- `is_valid_recurrence_rule(rule)`. -/
def is_valid_recurrence_rule (rule : String) : Bool :=
  match parse_recurrence_rule rule with
  | .ok _ => true
  | .error _ => false

/-! ## Task store data model

Embedding of `src/phase-5-cloud/backend/src/models/task.py`,
`models/push_subscription.py` and `schemas/task.py`.  The database primary key
is a `Nat` (Postgres assigns positive integers); `Option` models nullable
columns. -/

namespace TaskApp

structure Task where
  id : Nat
  user_id : String
  title : String
  description : Option String
  completed : Bool
  color : String
  pinned : Bool
  archived : Bool
  deleted_at : Option DateTime
  reminder_at : Option DateTime
  reminder_sent : Bool
  due_at : Option DateTime
  is_recurring : Bool
  recurrence_rule : Option String
  recurrence_end : Option DateTime
  parent_task_id : Option Nat
  created_at : DateTime
  updated_at : DateTime
deriving DecidableEq, Repr

structure PushSubscription where
  user_id : String
  endpoint : String
  p256dh_key : String
  auth_key : String
  user_agent : Option String
  created_at : DateTime
  updated_at : DateTime
deriving DecidableEq, Repr

/-- `TaskCreate` (schemas/task.py): the request body of `POST /tasks`. -/
structure TaskCreate where
  title : String
  description : Option String := none
  color : String := "default"
  pinned : Bool := false
  reminder_at : Option DateTime := none
  due_at : Option DateTime := none
  is_recurring : Bool := false
  recurrence_rule : Option String := none
  recurrence_end : Option DateTime := none
deriving DecidableEq, Repr

/-- `TaskUpdate` (schemas/task.py) after `model_dump(exclude_unset=True)`:
an outer `Option` marks whether the field was present in the patch; for
nullable columns the inner `Option` is the (possibly null) value. -/
structure TaskUpdate where
  title : Option String := none
  description : Option (Option String) := none
  completed : Option Bool := none
  color : Option String := none
  pinned : Option Bool := none
  archived : Option Bool := none
  reminder_at : Option (Option DateTime) := none
  due_at : Option (Option DateTime) := none
  is_recurring : Option Bool := none
  recurrence_rule : Option (Option String) := none
  recurrence_end : Option (Option DateTime) := none
deriving DecidableEq, Repr

/-- The HTTP error outcomes of the routers, plus an escaping `ValueError`. -/
inductive ApiError where
  | notFound
  | forbidden
  | valueError (msg : String)
deriving DecidableEq, Repr

/-- Python truthiness of an `Optional[str]`: `None` and `""` are falsy. -/
def pyTruthyStr : Option String → Bool
  | none => false
  | some s => s ≠ ""

/-- Python `opt or dflt` for an `Optional[datetime]` (every datetime is
truthy). -/
def pyOrDt (opt : Option DateTime) (dflt : DateTime) : DateTime := opt.getD dflt

/-- Python `opt or dflt` for an `Optional[int]` primary key (`0` is falsy). -/
def pyOrId (opt : Option Nat) (dflt : Nat) : Nat :=
  match opt with
  | some p => if p = 0 then dflt else p
  | none => dflt

/-! ## Task store operations (routers/tasks.py, services/task_service.py) -/

/-- `create_task` (`POST /tasks`, routers/tasks.py): builds and persists a
`Task` from the validated body.  `new_id` is the primary key the database
assigns at commit; `now` is the `_utc_now()` used for the timestamp defaults.
No recurrence-rule validation is performed anywhere on this path. -/
def create_task (user_id : String) (d : TaskCreate) (new_id : Nat)
    (now : DateTime) : Task :=
  { id := new_id
    user_id := user_id
    title := d.title
    description := d.description
    completed := false
    color := d.color
    pinned := d.pinned
    archived := false
    deleted_at := none
    reminder_at := d.reminder_at
    reminder_sent := false
    due_at := d.due_at
    is_recurring := d.is_recurring
    recurrence_rule := d.recurrence_rule
    recurrence_end := d.recurrence_end
    parent_task_id := none
    created_at := now
    updated_at := now }

/-- The field-assignment loop of `update_task`: `setattr(task, field, value)`
for every field present in the patch (`_strip_tz` is the identity on the
naive datetimes modelled here). -/
def applyPatch (t : Task) (p : TaskUpdate) : Task :=
  let t := match p.title with | some v => { t with title := v } | none => t
  let t := match p.description with | some v => { t with description := v } | none => t
  let t := match p.completed with | some v => { t with completed := v } | none => t
  let t := match p.color with | some v => { t with color := v } | none => t
  let t := match p.pinned with | some v => { t with pinned := v } | none => t
  let t := match p.archived with | some v => { t with archived := v } | none => t
  let t := match p.reminder_at with | some v => { t with reminder_at := v } | none => t
  let t := match p.due_at with | some v => { t with due_at := v } | none => t
  let t := match p.is_recurring with | some v => { t with is_recurring := v } | none => t
  let t := match p.recurrence_rule with | some v => { t with recurrence_rule := v } | none => t
  match p.recurrence_end with | some v => { t with recurrence_end := v } | none => t

/-- `update_task` (`PATCH /tasks/{id}`, routers/tasks.py): ownership checks,
partial update, then `reminder_sent = False` whenever the patch contained
`reminder_at`, then `mark_updated()`. -/
def update_task (task : Option Task) (user_id : String) (p : TaskUpdate)
    (now : DateTime) : Except ApiError Task :=
  match task with
  | none => .error .notFound
  | some t =>
    if t.user_id ≠ user_id then .error .forbidden
    else
      let t := applyPatch t p
      let t := if p.reminder_at.isSome then { t with reminder_sent := false } else t
      .ok { t with updated_at := now }

/-- `toggle_task_complete` (`PATCH /tasks/{id}/complete`, routers/tasks.py).
Returns the updated original task and the materialized next occurrence, if
any.  `new_id` is the key the database assigns to the inserted task; `now` is
`_utc_now()`.  The `deleted_at` column is never consulted. -/
def toggle_task_complete (task : Option Task) (user_id : String)
    (now : DateTime) (new_id : Nat) : Except ApiError (Task × Option Task) :=
  match task with
  | none => .error .notFound
  | some t0 =>
    if t0.user_id ≠ user_id then .error .forbidden
    else
      let t := { t0 with completed := !t0.completed, updated_at := now }
      if t.completed && t.is_recurring && pyTruthyStr t.recurrence_rule then
        let rule := t.recurrence_rule.getD ""
        let base_date := pyOrDt t.reminder_at (pyOrDt t.due_at now)
        match calculate_next_occurrence base_date rule t.recurrence_end with
        | .error msg => .error (.valueError msg)
        | .ok none => .ok (t, none)
        | .ok (some next_date) =>
          let next_task : Task :=
            { id := new_id
              user_id := t.user_id
              title := t.title
              description := t.description
              color := t.color
              pinned := t.pinned
              archived := false
              completed := false
              deleted_at := none
              reminder_at := if t.reminder_at.isSome then some next_date else none
              due_at := if t.due_at.isSome && !t.reminder_at.isSome
                        then some next_date else none
              reminder_sent := false
              is_recurring := true
              recurrence_rule := t.recurrence_rule
              recurrence_end := t.recurrence_end
              parent_task_id := some (pyOrId t.parent_task_id t.id)
              created_at := now
              updated_at := now }
          .ok ({ t with is_recurring := false }, some next_task)
      else .ok (t, none)

/-- `set_recurring` (services/task_service.py): sets `is_recurring = True`
and stores the given rule and end date verbatim — the rule is not parsed or
validated on this path. -/
def set_recurring (task : Option Task) (user_id : String)
    (recurrence_rule : String) (recurrence_end : Option DateTime)
    (now : DateTime) : Except ApiError Task :=
  match task with
  | none => .error .notFound
  | some t =>
    if t.user_id ≠ user_id then .error .forbidden
    else .ok { t with is_recurring := true
                      recurrence_rule := some recurrence_rule
                      recurrence_end := recurrence_end
                      updated_at := now }

/-! ## Push subscription registration (routers/push_subscriptions.py) -/

/-- The `WHERE user_id = … AND endpoint = …` condition. -/
def subMatches (user_id endpoint : String) (s : PushSubscription) : Bool :=
  s.user_id == user_id && s.endpoint == endpoint

/-- `create_push_subscription` (`POST /push-subscriptions`): upsert keyed on
`(user_id, endpoint)`.  `scalar_one_or_none()` raises `MultipleResultsFound`
when more than one row matches, modelled as the error case. -/
def create_push_subscription (subs : List PushSubscription)
    (user_id endpoint p256dh_key auth_key : String) (user_agent : Option String)
    (now : DateTime) : Except String (List PushSubscription) :=
  match subs.filter (subMatches user_id endpoint) with
  | [] =>
      .ok (subs ++ [{ user_id := user_id, endpoint := endpoint,
                      p256dh_key := p256dh_key, auth_key := auth_key,
                      user_agent := user_agent,
                      created_at := now, updated_at := now }])
  | [_] =>
      .ok (subs.map (fun s =>
        if subMatches user_id endpoint s then
          { s with p256dh_key := p256dh_key, auth_key := auth_key,
                   user_agent := user_agent, updated_at := now }
        else s))
  | _ => .error "MultipleResultsFound"

/-- One registration call's inputs (keys, user agent, and its `_utc_now`). -/
structure UpsertCall where
  p256dh_key : String
  auth_key : String
  user_agent : Option String
  now : DateTime
deriving DecidableEq, Repr

/-- A sequence of registration calls for the same `(user_id, endpoint)`. -/
def upsertCalls (user_id endpoint : String) :
    List UpsertCall → List PushSubscription → Except String (List PushSubscription)
  | [], subs => .ok subs
  | c :: rest, subs =>
    match create_push_subscription subs user_id endpoint
        c.p256dh_key c.auth_key c.user_agent c.now with
    | .ok subs1 => upsertCalls user_id endpoint rest subs1
    | .error e => .error e

/-! ## Reminder scheduler (routers/tasks.py, `handle_cron_binding`) -/

/-- The database state the scheduler and worker see. -/
structure Store where
  tasks : List Task
  subs : List PushSubscription
deriving DecidableEq, Repr

/-- The scheduler query: `reminder_at IS NOT NULL AND reminder_at <= now AND
reminder_sent = false AND deleted_at IS NULL`. -/
def isDue (now : DateTime) (t : Task) : Bool :=
  t.reminder_at.isSome &&
  (match t.reminder_at with | some r => dtLe r now | none => false) &&
  !t.reminder_sent &&
  t.deleted_at.isNone

/-- The `ReminderEvent` payload published per (due task, subscription) pair
(dapr_client.publish_reminder_event with `to_webpush_dict()`). -/
structure ReminderEvent where
  task_id : Nat
  user_id : String
  title : String
  reminder_at : Option DateTime
  due_at : Option DateTime
  endpoint : String
  p256dh : String
  auth : String
deriving DecidableEq, Repr

/-- The event built for task `t` and subscription `s`. -/
def mkReminderEvent (t : Task) (s : PushSubscription) : ReminderEvent :=
  { task_id := t.id, user_id := t.user_id, title := t.title,
    reminder_at := t.reminder_at, due_at := t.due_at,
    endpoint := s.endpoint, p256dh := s.p256dh_key, auth := s.auth_key }

/-- `handle_cron_binding` (`POST /tasks/reminders/binding`): one scheduler
tick.  Selects the due tasks, publishes one event per (task, subscription of
the task's user) pair, and performs no writes — the returned store is the
input store, reflecting that the handler never mutates a row. -/
def handle_cron_binding (st : Store) (now : DateTime) :
    List ReminderEvent × Store :=
  let due_tasks := st.tasks.filter (isDue now)
  let events := due_tasks.foldl
    (fun acc t =>
      acc ++ (st.subs.filter (fun s => s.user_id == t.user_id)).map
        (mkReminderEvent t))
    []
  (events, st)

/-! ## Notification worker (notification-service/src/push.py, handlers.py) -/

/-- Outcome of the `webpush(...)` call against the push gateway: success, a
`WebPushException` (with the gateway status code, when a response is
attached, and the exception message), or any other exception. -/
inductive PushOutcome where
  | ok
  | webPushExc (status : Option Nat) (msg : String)
  | otherExc
deriving DecidableEq, Repr

/-- `send_push_notification` (push.py): returns the boolean the Dapr handler
uses as the ack decision.  On a `WebPushException` whose response status is
400 or 410 — or whose message contains "400" or "410" — it returns `True`
("acknowledge to stop retries"); it deletes nothing. -/
def send_push_notification (vapid_configured : Bool) (outcome : PushOutcome) : Bool :=
  if !vapid_configured then false
  else
    match outcome with
    | .ok => true
    | .webPushExc status msg =>
        let should_ack := match status with
          | some code => code == 400 || code == 410
          | none => false
        let should_ack := should_ack || pyContains msg "410" || pyContains msg "400"
        if should_ack then true else false
    | .otherExc => false

/-- `send_reminder_notification` (push.py): builds the reminder payload and
delegates to `send_push_notification`; the ack decision depends only on the
VAPID configuration and the gateway outcome. -/
def send_reminder_notification (vapid_configured : Bool) (outcome : PushOutcome) :
    Bool :=
  send_push_notification vapid_configured outcome

/-- `mark_reminder_sent` (`PATCH /tasks/{id}/reminder-sent`, routers/tasks.py):
sets `reminder_sent = True` on the row with the given id. -/
def mark_reminder_sent (st : Store) (task_id : Nat) (now : DateTime) : Store :=
  { st with tasks := st.tasks.map (fun t =>
      if t.id == task_id then { t with reminder_sent := true, updated_at := now }
      else t) }

/-- `check_reminder_already_sent` (handlers.py): fetch the task and read its
`reminder_sent` flag; any failure yields `False`. -/
def check_reminder_already_sent (st : Store) (task_id : Nat) : Bool :=
  match st.tasks.find? (fun t => t.id == task_id) with
  | some t => t.reminder_sent
  | none => false

/-- The incoming bus message of `handle_reminder_event` (handlers.py);
`push_subscription` is the embedded Web Push subscription dict. -/
structure WebPushInfo where
  endpoint : String
  p256dh : String
  auth : String
deriving DecidableEq, Repr

structure ReminderEventMsg where
  task_id : Option Nat
  user_id : Option String
  title : String
  due_at : Option String
  push_subscription : Option WebPushInfo
deriving DecidableEq, Repr

/-- `handle_reminder_event` (handlers.py): validate the message, run the
dedup probe, dispatch the push, and on a `True` dispatch result call
`mark_reminder_sent`.  Returns the ack decision and the store after any
write-back.  No code path deletes a push subscription. -/
def handle_reminder_event (st : Store) (ev : ReminderEventMsg)
    (vapid_configured : Bool) (outcome : PushOutcome) (now : DateTime) :
    Bool × Store :=
  match ev.task_id, ev.push_subscription with
  | some tid, some _ =>
    if tid = 0 then (true, st)   -- Python: `if not task_id` (0 is falsy)
    else if check_reminder_already_sent st tid then (true, st)
    else
      let success := send_reminder_notification vapid_configured outcome
      if success then (true, mark_reminder_sent st tid now)
      else (false, st)
  | _, _ => (true, st)

/-! ## Concrete fixtures

Concrete rows and instants used to instantiate the theorems below on closed
inputs.  `dt20240101` is Monday 2024-01-01 09:00 UTC. -/

def dt20240101 : DateTime := ⟨2024, 1, 1, 9, 0, 0, 0⟩
def dt20240102 : DateTime := ⟨2024, 1, 2, 9, 0, 0, 0⟩
def dt20231231 : DateTime := ⟨2023, 12, 31, 0, 0, 0, 0⟩
def dt20240601 : DateTime := ⟨2024, 6, 1, 12, 0, 0, 0⟩

/-- A plain open task owned by user "u1": daily recurring, reminder at
2024-01-01 09:00, no end date. -/
def sampleTask : Task :=
  { id := 1
    user_id := "u1"
    title := "standup"
    description := some "daily sync"
    completed := false
    color := "default"
    pinned := true
    archived := false
    deleted_at := none
    reminder_at := some dt20240101
    reminder_sent := false
    due_at := none
    is_recurring := true
    recurrence_rule := some "daily"
    recurrence_end := none
    parent_task_id := none
    created_at := dt20231231
    updated_at := dt20231231 }

/-- A subscription of user "u1" at endpoint "E". -/
def sampleSubE : PushSubscription :=
  { user_id := "u1", endpoint := "E", p256dh_key := "pk1", auth_key := "ak1",
    user_agent := none, created_at := dt20231231, updated_at := dt20231231 }

/-- A second subscription of user "u1" at endpoint "F". -/
def sampleSubF : PushSubscription :=
  { user_id := "u1", endpoint := "F", p256dh_key := "pk2", auth_key := "ak2",
    user_agent := none, created_at := dt20231231, updated_at := dt20231231 }

/-! ## Helper lemmas -/

/-- Adding one month per `_add_months`: the month advances (wrapping December
into January of the next year) and the day is clamped to the length of the
target month. -/
theorem add_months_one_spec (y : Int) (m d h mi s mc : Nat)
    (h1 : 1 ≤ m) (h2 : m ≤ 12) :
    _add_months ⟨y, m, d, h, mi, s, mc⟩ 1 =
      ⟨(if m = 12 then y + 1 else y), (if m = 12 then 1 else m + 1),
       min d (daysInMonth (if m = 12 then y + 1 else y) (if m = 12 then 1 else m + 1)),
       h, mi, s, mc⟩ := by
  have hdiv : ((m : Int) - 1 + 1).fdiv 12 = (if m = 12 then 1 else 0) := by
    interval_cases m <;> decide
  have hmod : (((m : Int) - 1 + 1).fmod 12 + 1).toNat = (if m = 12 then 1 else m + 1) := by
    interval_cases m <;> decide
  simp only [_add_months, hdiv, hmod]
  split_ifs with hm <;> simp

/-- `calculate_next_occurrence` on rule "monthly" with no end date is
`_add_months … 1`. -/
theorem calc_monthly_eq (dt : DateTime) :
    calculate_next_occurrence dt "monthly" none = .ok (some (_add_months dt 1)) := rfl

/-- C7: for the rule "monthly", `next_occurrence` adds one month and clamps
the day to the last day of the resulting month; in particular
2024-01-31 ↦ 2024-02-29 and 2023-01-31 ↦ 2023-02-28. -/
theorem monthly_adds_one_month_and_clamps :
    (∀ (y : Int) (m d h mi s mc : Nat), 1 ≤ m → m ≤ 12 →
      calculate_next_occurrence ⟨y, m, d, h, mi, s, mc⟩ "monthly" none =
        .ok (some ⟨(if m = 12 then y + 1 else y), (if m = 12 then 1 else m + 1),
          min d (daysInMonth (if m = 12 then y + 1 else y) (if m = 12 then 1 else m + 1)),
          h, mi, s, mc⟩)) ∧
    calculate_next_occurrence ⟨2024, 1, 31, 0, 0, 0, 0⟩ "monthly" none =
      .ok (some ⟨2024, 2, 29, 0, 0, 0, 0⟩) ∧
    calculate_next_occurrence ⟨2023, 1, 31, 0, 0, 0, 0⟩ "monthly" none =
      .ok (some ⟨2023, 2, 28, 0, 0, 0, 0⟩) := by
  refine ⟨?_, rfl, rfl⟩
  intro y m d h mi s mc h1 h2
  rw [calc_monthly_eq, add_months_one_spec y m d h mi s mc h1 h2]

/-- C7 witness: the general clause of the theorem applied at 2024-06-15. -/
theorem monthly_adds_one_month_and_clamps_witness :
    calculate_next_occurrence ⟨2024, 6, 15, 9, 30, 0, 0⟩ "monthly" none =
      .ok (some ⟨2024, 7, 15, 9, 30, 0, 0⟩) := by
  have h := monthly_adds_one_month_and_clamps.1 2024 6 15 9 30 0 0
    (by decide) (by decide)
  simpa using h

/-- C5: if the computed raw next occurrence lies strictly after a non-null
`recurrence_end`, `calculate_next_occurrence` returns null; consequently
completing a recurring task whose next occurrence would exceed
`recurrence_end` creates zero new tasks. -/
theorem next_past_end_is_null_and_no_materialization :
    (∀ (cur : DateTime) (rule rt : String) (ce : Option String) (e n : DateTime),
      parse_recurrence_rule rule = .ok (rt, ce) →
      rawNextDate rt ce cur = .ok (some n) →
      dtLt e n = true →
      calculate_next_occurrence cur rule (some e) = .ok none) ∧
    (∀ (t : Task) (uid : String) (now : DateTime) (nid : Nat)
       (rt : String) (ce : Option String) (e n : DateTime),
      t.user_id = uid →
      t.completed = false →
      t.is_recurring = true →
      pyTruthyStr t.recurrence_rule = true →
      t.recurrence_end = some e →
      parse_recurrence_rule (t.recurrence_rule.getD "") = .ok (rt, ce) →
      rawNextDate rt ce (pyOrDt t.reminder_at (pyOrDt t.due_at now)) = .ok (some n) →
      dtLt e n = true →
      toggle_task_complete (some t) uid now nid =
        .ok ({ t with completed := true, updated_at := now }, none)) := by
  have part1 : ∀ (cur : DateTime) (rule rt : String) (ce : Option String) (e n : DateTime),
      parse_recurrence_rule rule = .ok (rt, ce) →
      rawNextDate rt ce cur = .ok (some n) →
      dtLt e n = true →
      calculate_next_occurrence cur rule (some e) = .ok none := by
    intro cur rule rt ce e n hparse hraw hlt
    simp [calculate_next_occurrence, hparse, hraw, hlt]
  refine ⟨part1, ?_⟩
  intro t uid now nid rt ce e n huid hc hrec htruthy hend hparse hraw hlt
  have hcalc := part1 (pyOrDt t.reminder_at (pyOrDt t.due_at now))
    (t.recurrence_rule.getD "") rt ce e n hparse hraw hlt
  rw [← hend] at hcalc
  simp only [toggle_task_complete, huid]
  rw [if_neg (by simp)]
  simp only [hc, Bool.not_false, hrec, htruthy, Bool.and_self, if_true]
  simp [hcalc]

/-- C5 witness: both clauses instantiated on concrete data — a "daily" rule
whose next date (2024-06-02) exceeds the end date 2024-01-01 yields null, and
completing a daily task with `recurrence_end` = 2023-12-31 in the past
materializes nothing. -/
theorem next_past_end_is_null_and_no_materialization_witness :
    calculate_next_occurrence dt20240601 "daily" (some dt20240101) = .ok none ∧
    toggle_task_complete (some { sampleTask with recurrence_end := some dt20231231 })
        "u1" dt20240601 7 =
      .ok ({ sampleTask with recurrence_end := some dt20231231,
                             completed := true, updated_at := dt20240601 }, none) :=
  ⟨next_past_end_is_null_and_no_materialization.1 dt20240601 "daily" "daily" none
      dt20240101 (addDays dt20240601 1) rfl rfl (by decide),
   next_past_end_is_null_and_no_materialization.2
      { sampleTask with recurrence_end := some dt20231231 } "u1" dt20240601 7
      "daily" none dt20231231 (addDays dt20240101 1)
      rfl rfl rfl (by decide) rfl rfl rfl (by decide)⟩

/-- `task.parent_task_id or task.id` agrees with `Option.getD` whenever the
stored parent id is not the (unreachable) primary key 0. -/
theorem pyOrId_eq_getD (o : Option Nat) (d : Nat) (h : o ≠ some 0) :
    pyOrId o d = o.getD d := by
  cases o with
  | none => rfl
  | some p =>
    simp only [pyOrId, Option.getD_some]
    exact if_neg (fun h0 => h (by rw [h0]))

/-- C2: toggling an open recurring task with a truthy rule whose computed
next occurrence is non-null materializes exactly one new task copying
title/description/color/pinned, with `reminder_sent = false`,
`completed = false`, `is_recurring = true`, the original rule and end date,
and `parent_task_id = original.parent_task_id ?? original.id`; the original
ends up `completed = true` and `is_recurring = false`. -/
theorem toggle_recurring_materializes_next :
    ∀ (t : Task) (uid : String) (now : DateTime) (nid : Nat) (nd : DateTime),
      t.user_id = uid →
      t.completed = false →
      t.is_recurring = true →
      pyTruthyStr t.recurrence_rule = true →
      t.parent_task_id ≠ some 0 →
      calculate_next_occurrence (pyOrDt t.reminder_at (pyOrDt t.due_at now))
          (t.recurrence_rule.getD "") t.recurrence_end = .ok (some nd) →
      ∃ nt : Task,
        toggle_task_complete (some t) uid now nid =
          .ok ({ t with completed := true, is_recurring := false,
                        updated_at := now }, some nt) ∧
        nt.id = nid ∧
        nt.user_id = t.user_id ∧
        nt.title = t.title ∧
        nt.description = t.description ∧
        nt.color = t.color ∧
        nt.pinned = t.pinned ∧
        nt.reminder_sent = false ∧
        nt.completed = false ∧
        nt.is_recurring = true ∧
        nt.recurrence_rule = t.recurrence_rule ∧
        nt.recurrence_end = t.recurrence_end ∧
        nt.parent_task_id = some (t.parent_task_id.getD t.id) := by
  intro t uid now nid nd huid hc hrec htruthy hpar hnext
  refine ⟨{ id := nid
            user_id := t.user_id
            title := t.title
            description := t.description
            color := t.color
            pinned := t.pinned
            archived := false
            completed := false
            deleted_at := none
            reminder_at := if t.reminder_at.isSome then some nd else none
            reminder_sent := false
            due_at := if t.due_at.isSome && !t.reminder_at.isSome
                      then some nd else none
            is_recurring := true
            recurrence_rule := t.recurrence_rule
            recurrence_end := t.recurrence_end
            parent_task_id := some (pyOrId t.parent_task_id t.id)
            created_at := now
            updated_at := now },
    ?_, rfl, rfl, rfl, rfl, rfl, rfl, rfl, rfl, rfl, rfl, rfl, ?_⟩
  · simp only [toggle_task_complete, huid]
    rw [if_neg (by simp)]
    simp only [hc, Bool.not_false, hrec, htruthy, Bool.and_self, if_true]
    rw [hnext]
  · simp only [pyOrId_eq_getD t.parent_task_id t.id hpar]

/-- C2 witness: the theorem applied to `sampleTask` (daily rule, reminder at
2024-01-01 09:00, no end date) completed at 2024-06-01. -/
theorem toggle_recurring_materializes_next_witness :
    sampleTask.completed = false ∧
    pyTruthyStr sampleTask.recurrence_rule = true ∧
    (∃ nt : Task,
      toggle_task_complete (some sampleTask) "u1" dt20240601 7 =
        .ok ({ sampleTask with completed := true, is_recurring := false,
                               updated_at := dt20240601 }, some nt) ∧
      nt.id = 7 ∧
      nt.user_id = sampleTask.user_id ∧
      nt.title = sampleTask.title ∧
      nt.description = sampleTask.description ∧
      nt.color = sampleTask.color ∧
      nt.pinned = sampleTask.pinned ∧
      nt.reminder_sent = false ∧
      nt.completed = false ∧
      nt.is_recurring = true ∧
      nt.recurrence_rule = sampleTask.recurrence_rule ∧
      nt.recurrence_end = sampleTask.recurrence_end ∧
      nt.parent_task_id = some (sampleTask.parent_task_id.getD sampleTask.id)) :=
  ⟨rfl, by decide,
   toggle_recurring_materializes_next sampleTask "u1" dt20240601 7 dt20240102
     rfl rfl rfl (by decide) (by decide) rfl⟩

/-- C6 counterexample: completing a recurring daily task with `reminder_at`
and `due_at` both null.  The base date falls back to `now` and the computed
next occurrence is 2024-06-02 12:00 (non-null), yet the materialized task has
`reminder_at = none` and `due_at = none` — the next date is discarded, so
"otherwise its due_at receives the computed next date" is false. -/
theorem toggle_next_date_discarded_when_no_dates :
    calculate_next_occurrence dt20240601 "daily" none =
      .ok (some ⟨2024, 6, 2, 12, 0, 0, 0⟩) ∧
    toggle_task_complete (some { sampleTask with reminder_at := none })
        "u1" dt20240601 7 =
      .ok ({ sampleTask with reminder_at := none, completed := true,
                             is_recurring := false, updated_at := dt20240601 },
           some { id := 7
                  user_id := "u1"
                  title := "standup"
                  description := some "daily sync"
                  completed := false
                  color := "default"
                  pinned := true
                  archived := false
                  deleted_at := none
                  reminder_at := none
                  reminder_sent := false
                  due_at := none
                  is_recurring := true
                  recurrence_rule := some "daily"
                  recurrence_end := none
                  parent_task_id := some 1
                  created_at := dt20240601
                  updated_at := dt20240601 }) := by
  exact ⟨rfl, rfl⟩

/-- C6 (amended): the base date for the recurrence computation is
`reminder_at ?? due_at ?? now`; the materialized task's `reminder_at`
receives the computed next date exactly when the original had `reminder_at`
set, its `due_at` receives it exactly when the original had `due_at` set and
`reminder_at` unset, and when the original had neither, neither field
receives it. -/
theorem toggle_base_date_and_next_routing :
    ∀ (t : Task) (uid : String) (now : DateTime) (nid : Nat) (nd : DateTime),
      t.user_id = uid →
      t.completed = false →
      t.is_recurring = true →
      pyTruthyStr t.recurrence_rule = true →
      calculate_next_occurrence (pyOrDt t.reminder_at (pyOrDt t.due_at now))
          (t.recurrence_rule.getD "") t.recurrence_end = .ok (some nd) →
      ∃ nt : Task,
        toggle_task_complete (some t) uid now nid =
          .ok ({ t with completed := true, is_recurring := false,
                        updated_at := now }, some nt) ∧
        nt.reminder_at = (if t.reminder_at.isSome then some nd else none) ∧
        nt.due_at = (if t.due_at.isSome && !t.reminder_at.isSome
                     then some nd else none) := by
  intro t uid now nid nd huid hc hrec htruthy hnext
  refine ⟨{ id := nid
            user_id := t.user_id
            title := t.title
            description := t.description
            color := t.color
            pinned := t.pinned
            archived := false
            completed := false
            deleted_at := none
            reminder_at := if t.reminder_at.isSome then some nd else none
            reminder_sent := false
            due_at := if t.due_at.isSome && !t.reminder_at.isSome
                      then some nd else none
            is_recurring := true
            recurrence_rule := t.recurrence_rule
            recurrence_end := t.recurrence_end
            parent_task_id := some (pyOrId t.parent_task_id t.id)
            created_at := now
            updated_at := now },
    ?_, rfl, rfl⟩
  simp only [toggle_task_complete, huid]
  rw [if_neg (by simp)]
  simp only [hc, Bool.not_false, hrec, htruthy, Bool.and_self, if_true]
  rw [hnext]

/-- C6 witness: the amended theorem applied to a task with `due_at` set and
`reminder_at` unset — the next date lands in `due_at`. -/
theorem toggle_base_date_and_next_routing_witness :
    (∃ nt : Task,
      toggle_task_complete
          (some { sampleTask with reminder_at := none, due_at := some dt20240101 })
          "u1" dt20240601 7 =
        .ok ({ sampleTask with reminder_at := none, due_at := some dt20240101,
                               completed := true, is_recurring := false,
                               updated_at := dt20240601 }, some nt) ∧
      nt.reminder_at = none ∧
      nt.due_at = some dt20240102) := by
  have h := toggle_base_date_and_next_routing
    { sampleTask with reminder_at := none, due_at := some dt20240101 }
    "u1" dt20240601 7 dt20240102 rfl rfl rfl (by decide) rfl
  simpa using h

/-- C4: for an existing task owned by the caller, any patch containing the
`reminder_at` field (with whatever value, including null) leaves the task
with `reminder_sent = false` after the update. -/
theorem update_with_reminder_resets_sent :
    ∀ (t : Task) (uid : String) (p : TaskUpdate) (now : DateTime),
      t.user_id = uid →
      p.reminder_at.isSome = true →
      update_task (some t) uid p now =
        .ok { applyPatch t p with reminder_sent := false, updated_at := now } ∧
      ({ applyPatch t p with reminder_sent := false, updated_at := now }
        : Task).reminder_sent = false := by
  intro t uid p now huid hra
  refine ⟨?_, rfl⟩
  simp only [update_task, huid]
  rw [if_neg (by simp)]
  simp [hra]

/-- C4 witness: the theorem applied to `sampleTask` with `reminder_sent`
initially true and a patch that moves `reminder_at` to 2024-06-01. -/
theorem update_with_reminder_resets_sent_witness :
    update_task (some { sampleTask with reminder_sent := true }) "u1"
        { reminder_at := some (some dt20240601) } dt20240601 =
      .ok { applyPatch { sampleTask with reminder_sent := true }
              { reminder_at := some (some dt20240601) } with
            reminder_sent := false, updated_at := dt20240601 } ∧
    ({ applyPatch { sampleTask with reminder_sent := true }
         { reminder_at := some (some dt20240601) } with
       reminder_sent := false, updated_at := dt20240601 } : Task).reminder_sent
      = false :=
  update_with_reminder_resets_sent { sampleTask with reminder_sent := true }
    "u1" { reminder_at := some (some dt20240601) } dt20240601 rfl rfl

/-- Folding list-append over a list starting from `acc` is `acc` followed by
the concatenation of the per-element lists. -/
theorem foldl_append_eq_flatten {α β : Type} (f : α → List β) :
    ∀ (l : List α) (acc : List β),
      l.foldl (fun a t => a ++ f t) acc = acc ++ (l.map f).flatten := by
  intro l
  induction l with
  | nil => intro acc; simp
  | cons t ts ih => intro acc; simp [ih, List.append_assoc]

/-- The scheduler predicate unfolded to its four conjuncts. -/
theorem isDue_iff (now : DateTime) (t : Task) :
    isDue now t = true ↔
      (∃ r, t.reminder_at = some r ∧ dtLe r now = true) ∧
      t.reminder_sent = false ∧ t.deleted_at = none := by
  cases hra : t.reminder_at with
  | none => simp [isDue, hra]
  | some r =>
    simp [isDue, hra, Option.isNone_iff_eq_none, and_assoc]

/-- C3: a scheduler tick selects exactly the tasks with a non-null due,
unsent reminder on a non-deleted row (in particular no soft-deleted task),
publishes one `ReminderEvent` per (selected task, subscription of that
task's user) pair, and leaves the store — hence every `reminder_sent` —
unchanged. -/
theorem scheduler_tick_spec :
    ∀ (st : Store) (now : DateTime),
      (∀ t : Task, t ∈ st.tasks.filter (isDue now) ↔
        (t ∈ st.tasks ∧ (∃ r, t.reminder_at = some r ∧ dtLe r now = true) ∧
         t.reminder_sent = false ∧ t.deleted_at = none)) ∧
      (∀ t ∈ st.tasks.filter (isDue now), t.deleted_at = none) ∧
      (handle_cron_binding st now).1 =
        ((st.tasks.filter (isDue now)).map (fun t =>
          (st.subs.filter (fun s => s.user_id == t.user_id)).map
            (mkReminderEvent t))).flatten ∧
      (handle_cron_binding st now).2 = st := by
  intro st now
  refine ⟨?_, ?_, ?_, rfl⟩
  · intro t
    rw [List.mem_filter, isDue_iff]
  · intro t ht
    rw [List.mem_filter] at ht
    exact ((isDue_iff now t).mp ht.2).2.2
  · simp only [handle_cron_binding]
    rw [foldl_append_eq_flatten]
    simp

/-- C3 witness: one due task and two subscriptions of its user yield exactly
the two (task, subscription) events and an unchanged store. -/
theorem scheduler_tick_spec_witness :
    sampleTask ∈ (Store.mk [sampleTask] [sampleSubE, sampleSubF]).tasks.filter
      (isDue dt20240601) ∧
    sampleTask.deleted_at = none ∧
    (handle_cron_binding (Store.mk [sampleTask] [sampleSubE, sampleSubF])
        dt20240601).1 =
      [mkReminderEvent sampleTask sampleSubE,
       mkReminderEvent sampleTask sampleSubF] ∧
    (handle_cron_binding (Store.mk [sampleTask] [sampleSubE, sampleSubF])
        dt20240601).2 = Store.mk [sampleTask] [sampleSubE, sampleSubF] := by
  have h := scheduler_tick_spec (Store.mk [sampleTask] [sampleSubE, sampleSubF])
    dt20240601
  have hmem : sampleTask ∈ (Store.mk [sampleTask]
      [sampleSubE, sampleSubF]).tasks.filter (isDue dt20240601) := by decide
  exact ⟨hmem, h.2.1 sampleTask hmem, h.2.2.1.trans (by decide), h.2.2.2⟩

/-- The key-refresh update of the upsert branch. -/
theorem filter_subMatches_map (uid ep p a : String) (ua : Option String)
    (now : DateTime) (l : List PushSubscription) :
    (l.map (fun s => if subMatches uid ep s then
        { s with p256dh_key := p, auth_key := a, user_agent := ua,
                 updated_at := now } else s)).filter (subMatches uid ep) =
      (l.filter (subMatches uid ep)).map (fun s =>
        { s with p256dh_key := p, auth_key := a, user_agent := ua,
                 updated_at := now }) := by
  induction l with
  | nil => rfl
  | cons s ss ih =>
    by_cases h : subMatches uid ep s
    · have hupd : subMatches uid ep
        ({ s with p256dh_key := p, auth_key := a, user_agent := ua,
                  updated_at := now }) = subMatches uid ep s := rfl
      simp [h, hupd, ih]
    · have hh : subMatches uid ep s = false := by
        simpa using h
      simp [hh, ih]

/-- One registration call against a store holding at most one matching row
succeeds and leaves exactly one matching row, carrying the supplied keys and
`updated_at = now`. -/
theorem create_push_subscription_spec (subs : List PushSubscription)
    (uid ep p a : String) (ua : Option String) (now : DateTime)
    (h : (subs.filter (subMatches uid ep)).length ≤ 1) :
    ∃ (subs2 : List PushSubscription) (c : DateTime),
      create_push_subscription subs uid ep p a ua now = .ok subs2 ∧
      subs2.filter (subMatches uid ep) =
        [{ user_id := uid, endpoint := ep, p256dh_key := p, auth_key := a,
           user_agent := ua, created_at := c, updated_at := now }] := by
  cases hm : subs.filter (subMatches uid ep) with
  | nil =>
    refine ⟨subs ++ [PushSubscription.mk uid ep p a ua now now], now, ?_, ?_⟩
    · simp [create_push_subscription, hm]
    · rw [List.filter_append, hm]
      simp [subMatches]
  | cons s rest =>
    have hs : subMatches uid ep s = true := by
      have : s ∈ subs.filter (subMatches uid ep) := by
        rw [hm]; exact List.mem_cons_self s rest
      exact (List.mem_filter.mp this).2
    have hsu : s.user_id = uid ∧ s.endpoint = ep := by
      simpa [subMatches] using hs
    cases rest with
    | cons s2 rest2 =>
      exfalso
      rw [hm] at h
      simp at h
    | nil =>
      refine ⟨subs.map (fun s => if subMatches uid ep s then
          { s with p256dh_key := p, auth_key := a, user_agent := ua,
                   updated_at := now } else s), s.created_at, ?_, ?_⟩
      · simp [create_push_subscription, hm]
      · rw [filter_subMatches_map, hm]
        simp [hsu.1, hsu.2]

/-- C9: registration is an upsert keyed on `(user_id, endpoint)`: any
non-empty sequence of registration calls, starting from a store with at most
one matching row, leaves exactly one subscription row for that pair, and that
row carries the keys and `updated_at` of the last call. -/
theorem upsert_subscription_idempotent :
    ∀ (calls : List UpsertCall) (subs : List PushSubscription) (uid ep : String),
      (subs.filter (subMatches uid ep)).length ≤ 1 →
      calls ≠ [] →
      ∃ (subs2 : List PushSubscription) (c : DateTime) (last : UpsertCall),
        calls.getLast? = some last ∧
        upsertCalls uid ep calls subs = .ok subs2 ∧
        subs2.filter (subMatches uid ep) =
          [{ user_id := uid, endpoint := ep, p256dh_key := last.p256dh_key,
             auth_key := last.auth_key, user_agent := last.user_agent,
             created_at := c, updated_at := last.now }] := by
  intro calls
  induction calls with
  | nil => intro subs uid ep h hne; exact absurd rfl hne
  | cons cl rest ih =>
    intro subs uid ep h _
    obtain ⟨subs1, c1, hok1, hfil1⟩ := create_push_subscription_spec subs uid ep
      cl.p256dh_key cl.auth_key cl.user_agent cl.now h
    cases rest with
    | nil =>
      exact ⟨subs1, c1, cl, rfl, by simp [upsertCalls, hok1], hfil1⟩
    | cons c2 rest2 =>
      have h1 : (subs1.filter (subMatches uid ep)).length ≤ 1 := by
        rw [hfil1]; simp
      obtain ⟨subs2, c, last, hlast, hok, hfil⟩ :=
        ih subs1 uid ep h1 (by simp)
      refine ⟨subs2, c, last, ?_, ?_, hfil⟩
      · rw [List.getLast?_cons_cons]; exact hlast
      · simp only [upsertCalls, hok1]; exact hok

/-- C9 witness: two successive registrations of endpoint "E" for user "u1"
from an empty store leave exactly one row carrying the second call's keys. -/
theorem upsert_subscription_idempotent_witness :
    ∃ (subs2 : List PushSubscription) (c : DateTime) (last : UpsertCall),
      ([UpsertCall.mk "pk1" "ak1" none dt20240101,
        UpsertCall.mk "pk2" "ak2" none dt20240601] : List UpsertCall).getLast?
        = some last ∧
      upsertCalls "u1" "E"
        [UpsertCall.mk "pk1" "ak1" none dt20240101,
         UpsertCall.mk "pk2" "ak2" none dt20240601] [] = .ok subs2 ∧
      subs2.filter (subMatches "u1" "E") =
        [{ user_id := "u1", endpoint := "E", p256dh_key := last.p256dh_key,
           auth_key := last.auth_key, user_agent := last.user_agent,
           created_at := c, updated_at := last.now }] :=
  upsert_subscription_idempotent
    [UpsertCall.mk "pk1" "ak1" none dt20240101,
     UpsertCall.mk "pk2" "ak2" none dt20240601] [] "u1" "E"
    (by decide) (by decide)

/-- C8 counterexample: `create_task` persists `is_recurring = true` with a
null `recurrence_rule`, and `set_recurring` stores the unparseable rule
"fortnightly" — so the claimed invariant "is_recurring = true implies a
parseable rule" is not established by these operations. -/
theorem recurring_without_parseable_rule_reachable :
    (create_task "u1" { title := "x", is_recurring := true } 1 dt20240101).is_recurring
      = true ∧
    (create_task "u1" { title := "x", is_recurring := true } 1 dt20240101).recurrence_rule
      = none ∧
    set_recurring (some sampleTask) "u1" "fortnightly" none dt20240601 =
      .ok { sampleTask with is_recurring := true,
                            recurrence_rule := some "fortnightly",
                            recurrence_end := none, updated_at := dt20240601 } ∧
    is_valid_recurrence_rule "fortnightly" = false :=
  ⟨rfl, rfl, rfl, rfl⟩

/-- C8 (amended): neither `create_task` nor `set_recurring` validates the
recurrence rule: `create_task` persists `is_recurring` and `recurrence_rule`
exactly as supplied, and `set_recurring` on an owned task sets
`is_recurring = true` and stores the given rule verbatim, parseable or not.
The invariant holds only when callers happen to supply parseable rules. -/
theorem recurring_fields_stored_unvalidated :
    (∀ (uid : String) (d : TaskCreate) (nid : Nat) (now : DateTime),
      (create_task uid d nid now).is_recurring = d.is_recurring ∧
      (create_task uid d nid now).recurrence_rule = d.recurrence_rule) ∧
    (∀ (t : Task) (uid rule : String) (e : Option DateTime) (now : DateTime),
      t.user_id = uid →
      set_recurring (some t) uid rule e now =
        .ok { t with is_recurring := true, recurrence_rule := some rule,
                     recurrence_end := e, updated_at := now }) := by
  refine ⟨fun uid d nid now => ⟨rfl, rfl⟩, ?_⟩
  intro t uid rule e now huid
  simp only [set_recurring, huid]
  rw [if_neg (by simp)]

/-- C8 witness: the amended theorem applied to a creation request carrying
`is_recurring = true` with no rule, and to `set_recurring` with the
unparseable rule "every-other-day". -/
theorem recurring_fields_stored_unvalidated_witness :
    ((create_task "u2" { title := "y", is_recurring := true } 3 dt20240102).is_recurring
        = ({ title := "y", is_recurring := true } : TaskCreate).is_recurring ∧
     (create_task "u2" { title := "y", is_recurring := true } 3 dt20240102).recurrence_rule
        = ({ title := "y", is_recurring := true } : TaskCreate).recurrence_rule) ∧
    set_recurring (some sampleTask) "u1" "every-other-day" none dt20240102 =
      .ok { sampleTask with is_recurring := true,
                            recurrence_rule := some "every-other-day",
                            recurrence_end := none, updated_at := dt20240102 } :=
  ⟨recurring_fields_stored_unvalidated.1 "u2" { title := "y", is_recurring := true }
      3 dt20240102,
   recurring_fields_stored_unvalidated.2 sampleTask "u1" "every-other-day" none
      dt20240102 rfl⟩

/-- C10 counterexample: a soft-deleted, owned, uncompleted recurring task
with the unparseable rule "fortnightly" makes `toggle_task_complete` raise
(`ValueError` from the rule parser), so "toggling completion succeeds
without error" does not hold for every soft-deleted owned task. -/
theorem toggle_soft_deleted_can_error :
    toggle_task_complete
        (some { sampleTask with deleted_at := some dt20240101,
                                recurrence_rule := some "fortnightly" })
        "u1" dt20240601 7 =
      .error (.valueError "Unknown recurrence rule: fortnightly") := rfl

/-- C10 (amended): `toggle_task_complete` never consults `deleted_at`.  For
every soft-deleted task owned by the caller the toggle behaves exactly as for
a live row: it succeeds when the task is already completed, when it is not
recurring, when it is recurring with a null or empty (falsy) rule, and when
it is recurring with a truthy rule whose next-occurrence computation does not
raise — both when that computation returns null (out-of-range next, zero new
tasks) and when it returns an in-range next occurrence, in which case a new
task is still materialized and the materialized task is not deleted. -/
theorem toggle_ignores_deleted_at :
    ∀ (t : Task) (uid : String) (now : DateTime) (nid : Nat) (d : DateTime),
      t.user_id = uid →
      t.deleted_at = some d →
      (t.completed = true →
        toggle_task_complete (some t) uid now nid =
          .ok ({ t with completed := false, updated_at := now }, none)) ∧
      (t.completed = false → t.is_recurring = false →
        toggle_task_complete (some t) uid now nid =
          .ok ({ t with completed := true, updated_at := now }, none)) ∧
      (t.completed = false → t.is_recurring = true →
        pyTruthyStr t.recurrence_rule = false →
        toggle_task_complete (some t) uid now nid =
          .ok ({ t with completed := true, updated_at := now }, none)) ∧
      (t.completed = false → t.is_recurring = true →
        pyTruthyStr t.recurrence_rule = true →
        calculate_next_occurrence (pyOrDt t.reminder_at (pyOrDt t.due_at now))
            (t.recurrence_rule.getD "") t.recurrence_end = .ok none →
        toggle_task_complete (some t) uid now nid =
          .ok ({ t with completed := true, updated_at := now }, none)) ∧
      (∀ nd : DateTime, t.completed = false → t.is_recurring = true →
        pyTruthyStr t.recurrence_rule = true →
        calculate_next_occurrence (pyOrDt t.reminder_at (pyOrDt t.due_at now))
            (t.recurrence_rule.getD "") t.recurrence_end = .ok (some nd) →
        ∃ nt : Task,
          toggle_task_complete (some t) uid now nid =
            .ok ({ t with completed := true, is_recurring := false,
                          updated_at := now }, some nt) ∧
          nt.deleted_at = none) := by
  intro t uid now nid d huid _
  refine ⟨?_, ?_, ?_, ?_, ?_⟩
  · intro hc
    simp only [toggle_task_complete, huid]
    rw [if_neg (by simp)]
    simp [hc]
  · intro hc hrec
    simp only [toggle_task_complete, huid]
    rw [if_neg (by simp)]
    simp [hc, hrec]
  · intro hc hrec hfalsy
    simp only [toggle_task_complete, huid]
    rw [if_neg (by simp)]
    simp [hc, hrec, hfalsy]
  · intro hc hrec htruthy hcalc
    simp only [toggle_task_complete, huid]
    rw [if_neg (by simp)]
    simp only [hc, Bool.not_false, hrec, htruthy, Bool.and_self, if_true]
    simp [hcalc]
  · intro nd hc hrec htruthy hnext
    refine ⟨{ id := nid
              user_id := t.user_id
              title := t.title
              description := t.description
              color := t.color
              pinned := t.pinned
              archived := false
              completed := false
              deleted_at := none
              reminder_at := if t.reminder_at.isSome then some nd else none
              reminder_sent := false
              due_at := if t.due_at.isSome && !t.reminder_at.isSome
                        then some nd else none
              is_recurring := true
              recurrence_rule := t.recurrence_rule
              recurrence_end := t.recurrence_end
              parent_task_id := some (pyOrId t.parent_task_id t.id)
              created_at := now
              updated_at := now },
      ?_, rfl⟩
    simp only [toggle_task_complete, huid]
    rw [if_neg (by simp)]
    simp only [hc, Bool.not_false, hrec, htruthy, Bool.and_self, if_true]
    rw [hnext]

/-- C10 witness: the amended theorem applied to `sampleTask` soft-deleted at
2024-01-01 — with `recurrence_end` already past, completion succeeds with
zero new tasks, and with no end date it still materializes a non-deleted
next occurrence. -/
theorem toggle_ignores_deleted_at_witness :
    toggle_task_complete
        (some { sampleTask with deleted_at := some dt20240101,
                                recurrence_end := some dt20231231 })
        "u1" dt20240601 7 =
      .ok ({ sampleTask with deleted_at := some dt20240101,
                             recurrence_end := some dt20231231,
                             completed := true, updated_at := dt20240601 },
           none) ∧
    (∃ nt : Task,
      toggle_task_complete
          (some { sampleTask with deleted_at := some dt20240101 })
          "u1" dt20240601 7 =
        .ok ({ sampleTask with deleted_at := some dt20240101,
                               completed := true, is_recurring := false,
                               updated_at := dt20240601 }, some nt) ∧
      nt.deleted_at = none) := by
  have h4 := (toggle_ignores_deleted_at
    { sampleTask with deleted_at := some dt20240101,
                      recurrence_end := some dt20231231 }
    "u1" dt20240601 7 dt20240101 rfl rfl).2.2.2.1 rfl rfl (by decide) rfl
  have h5 := (toggle_ignores_deleted_at
    { sampleTask with deleted_at := some dt20240101 }
    "u1" dt20240601 7 dt20240101 rfl rfl).2.2.2.2 dt20240102 rfl rfl
    (by decide) rfl
  exact ⟨h4, by simpa using h5⟩

/-- C1: evaluation of the worker at a terminal gateway failure.  The push for
task 1 on endpoint "E" raises a `WebPushException` with response status 410
(similarly 400): `send_push_notification` returns `True`, and the handler
therefore acknowledges the message, deletes no push-subscription row (both
rows, including endpoint "E", survive), and marks the task's reminder as
sent — where the claim requires the endpoint row to be deleted and the
reminder left unmarked. -/
theorem terminal_push_failure_worker_behaviour :
    send_push_notification true (.webPushExc (some 410) "WebPushException: Gone")
      = true ∧
    send_push_notification true (.webPushExc (some 400) "WebPushException: Bad")
      = true ∧
    handle_reminder_event (Store.mk [sampleTask] [sampleSubE, sampleSubF])
        (ReminderEventMsg.mk (some 1) (some "u1") "standup" none
          (some (WebPushInfo.mk "E" "pk1" "ak1")))
        true (.webPushExc (some 410) "WebPushException: Gone") dt20240601 =
      (true,
       Store.mk [{ sampleTask with reminder_sent := true,
                                   updated_at := dt20240601 }]
                [sampleSubE, sampleSubF]) :=
  ⟨rfl, rfl, rfl⟩

end TaskApp
